import Mathlib

/-!
Shallow embedding of the core of the Stock-trading backend
(`backend/src/app/services/...`) in Lean 4, together with theorems settling
the frozen claims about its specification.

Modelling conventions:
* Python floats are modelled as exact rationals; the float formulas in the
  source are arithmetic on values for which exact arithmetic agrees with the
  intent of every claim considered here.  Where a float NaN can arise in the
  source (rolling windows that are not yet full, the pandas sample standard
  deviation of a single observation), the NaN is modelled as `Option.none`
  or absorbed by the guard that the source itself applies to it; each such
  place is noted next to the definition.
* `async` functions are pure in the source except for provider calls and
  shared-state access; they are modelled as pure functions over explicit
  provider maps and explicit cache states.
* Timestamp strings are modelled by their parsed value (an integer), since
  the source immediately parses them (`pd.to_datetime`) before use.
-/

namespace StockTrading

/-! ## Value types (`app/services/providers/base.py`, `analysis/models.py`) -/

/-- Model of `RiskProfile` from `analysis/models.py` (Swedish member names as in the
source). -/
inductive RiskProfile where
  | KONSERVATIV
  | BALANSERAD
  | AGGRESSIV
deriving DecidableEq, Repr

/-- Model of `Quote` from `providers/base.py`.  `symbol`, `price`, `change_pct`,
optional volume and currency. -/
structure Quote where
  symbol : String
  price : ℚ
  change_pct : ℚ
  volume : Option ℤ := none
  currency : Option String := none
deriving DecidableEq, Repr

/-- Model of `Candle` from `providers/base.py`.  The source stores the timestamp as an
ISO-8601 string and parses it with `pd.to_datetime` before any use; we model
the timestamp by its parsed value.  The field `open` is renamed `open_`
because `open` is a Lean keyword. -/
structure Candle where
  timestamp : ℤ
  open_ : ℚ
  high : ℚ
  low : ℚ
  close : ℚ
  volume : ℚ
deriving DecidableEq, Repr

/-- Model of `Fundamentals` from `providers/base.py`: eight optional ratios. -/
structure Fundamentals where
  pe : Option ℚ := none
  ps : Option ℚ := none
  roe : Option ℚ := none
  debt_to_equity : Option ℚ := none
  growth_5y : Option ℚ := none
  profit_margin : Option ℚ := none
  beta : Option ℚ := none
  dividend_yield : Option ℚ := none
deriving DecidableEq, Repr

/-- Model of `SnapshotEntry` from `analysis/models.py`. -/
structure SnapshotEntry where
  quote : Quote
  fundamentals : Option Fundamentals := none
  history : List Candle := []
deriving DecidableEq, Repr

/-- Model of `Ticker` from `providers/base.py`. -/
structure Ticker where
  symbol : String
  name : Option String := none
  market : Option String := none
  exchange : Option String := none
  currency : Option String := none
deriving DecidableEq, Repr

/-- Model of `Recommendation` from `analysis/models.py`. -/
structure Recommendation where
  symbol : String
  name : Option String := none
  sector : Option String := none
  price : ℚ
  change_pct : ℚ
  score : ℚ
  signal : String
  factors : List String := []
  profile : RiskProfile
deriving DecidableEq, Repr

/-! ## Indicators (`app/services/analysis/indicators.py`)

All indicator functions in the source return full pandas series; the scoring
code only reads `.iloc[-1]`.  We model a series as a `List (Option ℚ)` whose
`none` entries are the NaN values produced by a rolling window with
`min_periods = window` before the window is full. -/

/-- Ordering of candles by (parsed) timestamp, the sort key used by
`candles_to_dataframe`. -/
def byTimestamp (a b : Candle) : Prop := a.timestamp ≤ b.timestamp

instance : DecidableRel byTimestamp := fun a b => inferInstanceAs (Decidable (a.timestamp ≤ b.timestamp))

instance : IsTotal Candle byTimestamp := ⟨fun a b => le_total a.timestamp b.timestamp⟩

instance : IsTrans Candle byTimestamp := ⟨fun _ _ _ h₁ h₂ => le_trans h₁ h₂⟩

/-- Model of `candles_to_dataframe` from `indicators.py`: builds a dataframe of the
candles sorted by timestamp (`df.sort_values("timestamp")`).  We keep the
sorted candle list itself as the model of the dataframe.  (pandas uses an
unstable quicksort by default; every claim that touches this function
assumes pairwise-distinct timestamps, for which all sorts agree, so a stable
insertion sort is a faithful model.) -/
def candles_to_dataframe (candles : List Candle) : List Candle :=
  candles.insertionSort byTimestamp

/-- Rolling mean with `min_periods = window` (`series.rolling(window=w,
min_periods=w).mean()`): entry `i` is defined iff `i + 1 ≥ window`, and is
then the mean of the `window` values ending at index `i`. -/
def rollingMean (l : List ℚ) (window : ℕ) : List (Option ℚ) :=
  (List.range l.length).map (fun i =>
    if window ≤ i + 1 then some (((l.take (i + 1)).drop (i + 1 - window)).sum / window)
    else none)

/-- Model of `moving_average` from `indicators.py`. -/
def moving_average (series : List ℚ) (window : ℕ) : List (Option ℚ) :=
  rollingMean series window

/-- Model of `.iloc[-1]` on a series whose NaN entries are `none`; yields `none` on an
empty series, matching the guards (`if not series.empty`, `pd.isna`) which
the scoring code applies to the last element. -/
def lastOpt (series : List (Option ℚ)) : Option ℚ :=
  series.getLast?.join

/-- Model of `rsi` from `indicators.py`.  `delta = series.diff()` has a NaN at index 0
which `np.where(delta > 0, delta, 0.0)` turns into `0.0` (a NaN compares
false), so the up/down series start with a genuine `0`.  Division semantics
of `roll_up / roll_down` for the last entry: `x / 0 = inf` for `x > 0`,
giving RSI `100`, while `0 / 0 = NaN`, modelled as `none` (a NaN RSI value
compares false against both 30 and 70 in the consumer, exactly like the
missing value). -/
def rsi (series : List ℚ) (window : ℕ) : List (Option ℚ) :=
  let up : List ℚ :=
    if series.isEmpty then [] else
      0 :: List.zipWith (fun prev next => max (next - prev) 0) series series.tail
  let down : List ℚ :=
    if series.isEmpty then [] else
      0 :: List.zipWith (fun prev next => max (prev - next) 0) series series.tail
  List.zipWith
    (fun uo dno =>
      match uo, dno with
      | some u, some dn =>
        if dn = 0 then (if u = 0 then none else some 100)
        else some (100 - 100 / (1 + u / dn))
      | _, _ => none)
    (rollingMean up window) (rollingMean down window)

/-- Model of `atr` from `indicators.py`.  The true range of the first row has NaN in
both `high_close` and `low_close` columns; `ranges.max(axis=1)` skips NaN,
leaving `high - low`. -/
def atr (df : List Candle) (window : ℕ) : List (Option ℚ) :=
  let true_range : List ℚ :=
    match df with
    | [] => []
    | first :: rest =>
      (first.high - first.low) ::
        List.zipWith
          (fun prev cur =>
            max (cur.high - cur.low) (max |cur.high - prev.close| |cur.low - prev.close|))
          (first :: rest) rest
  rollingMean true_range window

/-! ## Scoring (`app/services/analysis/scoring.py`, `fundamentals.py`,
`risk.py`) -/

/-- Model of `latest_close > ma` guarded by `not pd.isna(ma)`. -/
def gtOpt (x : ℚ) (o : Option ℚ) : Bool :=
  match o with
  | some v => decide (v < x)
  | none => false

/-- Model of `score_technical` from `scoring.py`.  `compute_score` always passes the
dataframe explicitly, so the model takes it as a parameter. -/
def score_technical (entry : SnapshotEntry) (df : List Candle) : ℚ × List String :=
  if df.isEmpty then (50, ["Ingen historik – neutral poäng"])
  else
    let close := df.map Candle.close
    let latest_close := close.getLastD 0
    let ma20 := lastOpt (moving_average close 20)
    let ma50 := lastOpt (moving_average close 50)
    let ma200 := lastOpt (moving_average close 200)
    let rsi_last := lastOpt (rsi close 14)
    let s0 : ℚ × List String := (50, [])
    let s1 := if gtOpt latest_close ma20 then (s0.1 + 10, s0.2 ++ ["Pris över MA20"]) else s0
    let s2 := if gtOpt latest_close ma50 then (s1.1 + 10, s1.2 ++ ["Pris över MA50"]) else s1
    let s3 := if gtOpt latest_close ma200 then (s2.1 + 10, s2.2 ++ ["Pris över MA200"]) else s2
    let s4 :=
      match rsi_last with
      | some r =>
        if r < 30 then (s3.1 + 5, s3.2 ++ ["RSI < 30 (översåld)"])
        else if r > 70 then (s3.1 - 10, s3.2 ++ ["RSI > 70 (överköpt)"])
        else s3
      | none => s3
    let day_change := entry.quote.change_pct
    let final := s4.1 + max (min day_change 5) (-5)
    (max 0 (min 100 final), s4.2.take 3)

/-- Model of `score_fundamentals` from `fundamentals.py`.  `if not fundamentals:` is
true exactly when the value is `None` (a pydantic model instance is always
truthy). -/
def score_fundamentals (fundamentals : Option Fundamentals) : ℚ × List String :=
  match fundamentals with
  | none => (50, ["Saknar fundamentals – neutral poäng"])
  | some f =>
    let s0 : ℚ × List String := (50, [])
    let s1 :=
      match f.pe with
      | some pe => if pe < 15 then (s0.1 + 10, s0.2 ++ ["P/E under 15"])
                   else if pe > 30 then (s0.1 - 5, s0.2) else s0
      | none => s0
    let s2 :=
      match f.ps with
      | some ps => if ps < 3 then (s1.1 + 5, s1.2 ++ ["P/S under 3"]) else s1
      | none => s1
    let s3 :=
      match f.roe with
      | some roe => if roe > 15 then (s2.1 + 10, s2.2 ++ ["ROE över 15%"])
                    else if roe < 5 then (s2.1 - 5, s2.2) else s2
      | none => s2
    let s4 :=
      match f.growth_5y with
      | some g => if g > 10 then (s3.1 + 10, s3.2 ++ ["Tillväxt >10% (5y)"]) else s3
      | none => s3
    let s5 :=
      match f.profit_margin with
      | some m => if m > 15 then (s4.1 + 5, s4.2 ++ ["Stark marginal"]) else s4
      | none => s4
    let s6 :=
      match f.debt_to_equity with
      | some d => if d > 1 then (s5.1 - 10, s5.2 ++ ["Hög skuldsättning"]) else s5
      | none => s5
    let s7 :=
      match f.dividend_yield with
      | some dy => if dy ≥ 3 then (s6.1 + 5, s6.2 ++ ["Utdelning ≥3%"]) else s6
      | none => s6
    (max 0 (min 100 s7.1), s7.2)

/-- Model of `score_risk` from `risk.py`.  `atr_pct` is `None` when the ATR value is
missing or the last close is zero/absent; a NaN ATR (window not full)
behaves identically to `None` in every consumer (all comparisons with a NaN
are false), so both are modelled as `none`. -/
def score_risk (fundamentals : Option Fundamentals) (df : List Candle)
    (profile : RiskProfile) : ℚ × List String :=
  let last_atr := lastOpt (atr df 14)
  let last_close := (df.getLast?).map Candle.close
  let atr_pct : Option ℚ :=
    match last_atr, last_close with
    | some a, some c => if c = 0 then none else some (a / c * 100)
    | _, _ => none
  let s0 : ℚ × List String := (50, [])
  let s1 :=
    match atr_pct with
    | some ap =>
      if ap < 2.5 then (s0.1 + 10, s0.2 ++ ["Låg ATR (%)"])
      else if ap > 5 then (s0.1 - 10, s0.2 ++ ["Hög ATR (%)"])
      else s0
    | none => s0
  let s2 :=
    match fundamentals with
    | some f =>
      match f.beta with
      | some beta =>
        let t1 := if beta < 1 then (s1.1 + 5, s1.2 ++ ["Beta < 1"])
                  else if beta > 1.3 then (s1.1 - 5, s1.2 ++ ["Beta > 1.3"])
                  else s1
        if profile = RiskProfile.KONSERVATIV ∧ beta > 1 then (t1.1 - 5, t1.2)
        else if profile = RiskProfile.AGGRESSIV ∧ beta > 1.2 then (t1.1 + 5, t1.2)
        else t1
      | none => s1
    | none => s1
  let s3 :=
    match atr_pct with
    | some ap => if profile = RiskProfile.KONSERVATIV ∧ ap > 4 then (s2.1 - 5, s2.2) else s2
    | none => s2
  let s4 :=
    match atr_pct with
    | some ap => if profile = RiskProfile.AGGRESSIV ∧ ap < 2 then (s3.1 - 5, s3.2) else s3
    | none => s3
  (max 0 (min 100 s4.1), s4.2)

/-- Model of `compute_score` from `scoring.py`. -/
def compute_score (entry : SnapshotEntry) (profile : RiskProfile) : ℚ × List String :=
  let df := candles_to_dataframe entry.history
  let technical := score_technical entry df
  let fundamental := score_fundamentals entry.fundamentals
  let risk := score_risk entry.fundamentals df profile
  let composite := technical.1 * 0.45 + fundamental.1 * 0.4 + risk.1 * 0.15
  (max 0 (min 100 composite), (technical.2 ++ fundamental.2 ++ risk.2).take 3)

/-- Model of `score_to_signal` from `scoring.py`. -/
def score_to_signal (score : ℚ) : String :=
  if score ≥ 70 then "BUY"
  else if score ≤ 45 then "SELL"
  else "HOLD"

/-! ## Shared arithmetic helpers for the claims -/

lemma clamp_nonneg (x : ℚ) : 0 ≤ max 0 (min 100 x) := le_max_left _ _

lemma clamp_le_100 (x : ℚ) : max 0 (min 100 x) ≤ 100 :=
  max_le (by norm_num) (min_le_left _ _)

/-- Claim C1: for every composite score `s`, `score_to_signal` returns BUY
iff `s ≥ 70`, SELL iff `s ≤ 45`, and HOLD otherwise; in particular `70`
yields BUY, `45` yields SELL, and `69.999` and `45.001` yield HOLD. -/
theorem claim_C1 (s : ℚ) :
    (score_to_signal s = "BUY" ↔ 70 ≤ s) ∧
    (score_to_signal s = "SELL" ↔ s ≤ 45) ∧
    (score_to_signal s = "HOLD" ↔ 45 < s ∧ s < 70) ∧
    score_to_signal 70 = "BUY" ∧ score_to_signal 45 = "SELL" ∧
    score_to_signal 69.999 = "HOLD" ∧ score_to_signal 45.001 = "HOLD" := by
  refine ⟨?_, ?_, ?_, by norm_num [score_to_signal], by norm_num [score_to_signal],
    by norm_num [score_to_signal], by norm_num [score_to_signal]⟩ <;>
      (unfold score_to_signal; split_ifs with h₁ h₂ <;> simp_all <;> try constructor) <;>
      intros <;> linarith

/-- Witness for C1: score 80 classifies as BUY. -/
theorem claim_C1_witness : score_to_signal 80 = "BUY" :=
  (claim_C1 80).1.mpr (by norm_num)

/-! ## TTL cache (`app/services/providers/massive.py`, class `TTLCache`)

The store is a Python dict from key to `(expires_at, value)`; we model it as
an association list with at most one entry per key (dict insertion replaces
the old entry).  `time.monotonic()` is the explicit `now : ℚ` parameter, and
the `asyncio.Lock` critical section means each operation is an atomic state
transition, which is exactly a pure state-passing function. -/

structure TTLCache (α : Type) where
  ttl : ℚ
  store : List (String × ℚ × α)
deriving DecidableEq

namespace TTLCache

/-- Model of `TTLCache.get`: a missing entry is a miss; an entry with
`expires_at < now` is popped and is a miss; otherwise the value is returned.
The returned cache is the (possibly mutated) store. -/
def get {α : Type} (c : TTLCache α) (now : ℚ) (key : String) : Option α × TTLCache α :=
  match c.store.lookup key with
  | none => (none, c)
  | some (expires_at, value) =>
    if expires_at < now then
      (none, { c with store := c.store.filter (fun p => p.1 ≠ key) })
    else (some value, c)

/-- Model of `TTLCache.set`: stores `(now + ttl, value)` under `key`, overwriting any
prior entry. -/
def set {α : Type} (c : TTLCache α) (now : ℚ) (key : String) (value : α) : TTLCache α :=
  { c with store := (key, now + c.ttl, value) :: c.store.filter (fun p => p.1 ≠ key) }

lemma lookup_filter_ne {α : Type} (l : List (String × ℚ × α)) (key : String) :
    (l.filter (fun p => p.1 ≠ key)).lookup key = none := by
  induction l with
  | nil => rfl
  | cons hd t ih =>
    obtain ⟨a, rest⟩ := hd
    by_cases hk : a = key
    · rw [List.filter_cons_of_neg (by simpa using hk)]
      exact ih
    · rw [List.filter_cons_of_pos (by simpa using hk)]
      show List.lookup key ((a, rest) :: _) = none
      simp only [List.lookup]
      rw [show (key == a) = false from beq_eq_false_iff_ne.mpr (Ne.symm hk)]
      exact ih

end TTLCache

/-- Claim C5: a `get` within the TTL of a `set` returns exactly the value
written, and a `get` after the TTL has elapsed returns absent and removes
the entry from the store.  ("Within" includes the boundary instant
`now + ttl`, since the source treats an entry as expired only when
`expires_at < now` strictly.) -/
theorem claim_C5 {α : Type} (c : TTLCache α) (now t : ℚ) (key : String) (value : α) :
    (t ≤ now + c.ttl → ((c.set now key value).get t key).1 = some value) ∧
    (now + c.ttl < t →
      ((c.set now key value).get t key).1 = none ∧
      (((c.set now key value).get t key).2.store.lookup key) = none) := by
  constructor
  · intro h
    simp [TTLCache.get, TTLCache.set, List.lookup, not_lt.mpr h]
  · intro h
    have hget : ((c.set now key value).get t key) =
        (none, { c with store :=
          (((key, now + c.ttl, value) :: c.store.filter (fun p => p.1 ≠ key)).filter
            (fun p => p.1 ≠ key)) }) := by
      simp [TTLCache.get, TTLCache.set, List.lookup, h]
    rw [hget]
    exact ⟨rfl, TTLCache.lookup_filter_ne _ _⟩

/-- Witness for C5 at a concrete cache, key, value and read times. -/
theorem claim_C5_witness :
    ((((TTLCache.mk 30 []).set 0 "AAA" (5 : ℚ)).get 20 "AAA").1 = some 5) ∧
    ((((TTLCache.mk 30 []).set 0 "AAA" (5 : ℚ)).get 31 "AAA").1 = none ∧
      ((((TTLCache.mk 30 []).set 0 "AAA" (5 : ℚ)).get 31 "AAA").2.store.lookup "AAA") = none) :=
  ⟨(claim_C5 (TTLCache.mk 30 []) 0 20 "AAA" (5 : ℚ)).1 (by norm_num),
   (claim_C5 (TTLCache.mk 30 []) 0 31 "AAA" (5 : ℚ)).2 (by norm_num)⟩

lemma score_technical_bounds (entry : SnapshotEntry) (df : List Candle) :
    0 ≤ (score_technical entry df).1 ∧ (score_technical entry df).1 ≤ 100 := by
  unfold score_technical
  by_cases h : df.isEmpty
  · rw [if_pos h]
    norm_num
  · rw [if_neg h]
    exact ⟨clamp_nonneg _, clamp_le_100 _⟩

lemma score_fundamentals_bounds (f : Option Fundamentals) :
    0 ≤ (score_fundamentals f).1 ∧ (score_fundamentals f).1 ≤ 100 := by
  cases f with
  | none => norm_num [score_fundamentals]
  | some f => exact ⟨clamp_nonneg _, clamp_le_100 _⟩

lemma score_risk_bounds (f : Option Fundamentals) (df : List Candle) (profile : RiskProfile) :
    0 ≤ (score_risk f df profile).1 ∧ (score_risk f df profile).1 ≤ 100 :=
  ⟨clamp_nonneg _, clamp_le_100 _⟩

/-- Claim C2: for every `SnapshotEntry` and risk profile, the three
sub-scores computed by `compute_score` (technical, fundamental, risk) and
the composite score all lie in the closed interval `[0, 100]`. -/
theorem claim_C2 (entry : SnapshotEntry) (profile : RiskProfile) :
    (0 ≤ (score_technical entry (candles_to_dataframe entry.history)).1 ∧
      (score_technical entry (candles_to_dataframe entry.history)).1 ≤ 100) ∧
    (0 ≤ (score_fundamentals entry.fundamentals).1 ∧
      (score_fundamentals entry.fundamentals).1 ≤ 100) ∧
    (0 ≤ (score_risk entry.fundamentals (candles_to_dataframe entry.history) profile).1 ∧
      (score_risk entry.fundamentals (candles_to_dataframe entry.history) profile).1 ≤ 100) ∧
    (0 ≤ (compute_score entry profile).1 ∧ (compute_score entry profile).1 ≤ 100) :=
  ⟨score_technical_bounds entry _, score_fundamentals_bounds _,
   score_risk_bounds _ _ _, ⟨clamp_nonneg _, clamp_le_100 _⟩⟩

/-- Witness for C2: the composite score of a concrete quote-only entry is
within bounds. -/
theorem claim_C2_witness :
    0 ≤ (compute_score ⟨⟨"AAA", 10, 1, none, none⟩, none, []⟩ RiskProfile.BALANSERAD).1 ∧
    (compute_score ⟨⟨"AAA", 10, 1, none, none⟩, none, []⟩ RiskProfile.BALANSERAD).1 ≤ 100 :=
  (claim_C2 ⟨⟨"AAA", 10, 1, none, none⟩, none, []⟩ RiskProfile.BALANSERAD).2.2.2

/-! ## History range resolution (`MassiveProvider._resolve_range_params`) -/

/-- The `period_map` literal from `_resolve_range_params`. -/
def period_map : List (String × ℕ) :=
  [("1m", 30), ("3m", 90), ("6m", 180), ("1y", 365),
   ("3y", 365 * 3), ("5y", 365 * 5), ("10y", 365 * 10), ("max", 365 * 15)]

/-- Model of `_resolve_range_params` resolves the period to a window of
`period_map.get(period, 365)` days ending at the current time; the
time-independent content is the day count, modelled here.
(`days = period_map.get(period, 365)`.) -/
def resolve_range_days (period : String) : ℕ :=
  ((period_map.lookup period).getD 365)

/-- Claim C6: the resolver maps 1m→30, 3m→90, 6m→180, 1y→365, 3y→1095,
5y→1825, 10y→3650, max→5475 days, and every other period string to 365
days. -/
theorem claim_C6 :
    resolve_range_days "1m" = 30 ∧ resolve_range_days "3m" = 90 ∧
    resolve_range_days "6m" = 180 ∧ resolve_range_days "1y" = 365 ∧
    resolve_range_days "3y" = 1095 ∧ resolve_range_days "5y" = 1825 ∧
    resolve_range_days "10y" = 3650 ∧ resolve_range_days "max" = 5475 ∧
    (∀ period : String,
      period ∉ ["1m", "3m", "6m", "1y", "3y", "5y", "10y", "max"] →
      resolve_range_days period = 365) := by
  refine ⟨by decide, by decide, by decide, by decide, by decide, by decide,
    by decide, by decide, ?_⟩
  intro period hp
  simp only [List.mem_cons, List.not_mem_nil, or_false, not_or] at hp
  obtain ⟨h1, h2, h3, h4, h5, h6, h7, h8⟩ := hp
  simp [resolve_range_days, period_map, List.lookup,
    beq_eq_false_iff_ne.mpr h1, beq_eq_false_iff_ne.mpr h2, beq_eq_false_iff_ne.mpr h3,
    beq_eq_false_iff_ne.mpr h4, beq_eq_false_iff_ne.mpr h5, beq_eq_false_iff_ne.mpr h6,
    beq_eq_false_iff_ne.mpr h7, beq_eq_false_iff_ne.mpr h8]

/-- Witness for C6: an unknown period string resolves to 365 days. -/
theorem claim_C6_witness : resolve_range_days "2y" = 365 :=
  claim_C6.2.2.2.2.2.2.2.2 "2y" (by decide)

/-! ## Quote snapshot resolution and `get_quote`
(`MassiveProvider._resolve_price`, `_resolve_volume`, `get_quote`)

The snapshot payload fields `day` and `lastTrade` are optional dicts of
which only the keys `"c"`, `"v"` and `"p"` are read; they are modelled as
optional records with optional fields.  (A present-but-empty dict is falsy
in Python exactly like a missing one, and both behave like a record whose
fields are all `none`.) -/

structure SnapshotDay where
  c : Option ℚ := none
  v : Option ℚ := none
deriving DecidableEq, Repr

structure SnapshotLastTrade where
  p : Option ℚ := none
deriving DecidableEq, Repr

/-- Model of `MassiveSnapshotTicker` from `massive.py`. -/
structure MassiveSnapshotTicker where
  ticker : String
  todaysChangePerc : Option ℚ := none
  day : Option SnapshotDay := none
  lastTrade : Option SnapshotLastTrade := none
deriving DecidableEq, Repr

/-- Python `str.upper()` on ticker symbols (ASCII), kept kernel-executable.
(`String.toUpper` in core Lean does not reduce in the kernel.) -/
def upper (s : String) : String := ⟨s.data.map Char.toUpper⟩

/-- Python truthiness of an optional float: `None` and `0.0` are falsy. -/
def truthy (o : Option ℚ) : Option ℚ :=
  match o with
  | some x => if x = 0 then none else some x
  | none => none

/-- Model of `_resolve_price`: prefer a truthy `lastTrade["p"]`, fall back to a
truthy `day["c"]`, else `None`. -/
def resolve_price (snapshot : MassiveSnapshotTicker) : Option ℚ :=
  match truthy (snapshot.lastTrade.bind SnapshotLastTrade.p) with
  | some p => some p
  | none =>
    match truthy (snapshot.day.bind SnapshotDay.c) with
    | some c => some c
    | none => none

/-- Model of `_resolve_volume`: a truthy `day["v"]`, else `None`. -/
def resolve_volume (snapshot : MassiveSnapshotTicker) : Option ℚ :=
  truthy (snapshot.day.bind SnapshotDay.v)

/-- Python `int(...)` truncation toward zero. -/
def int_trunc (q : ℚ) : ℤ :=
  if 0 ≤ q then ⌊q⌋ else ⌈q⌉

/-- Model of `MassiveProvider.get_quote`, as a pure state transition of the quote
cache.  `upstream` is the (already JSON-validated) snapshot the wire would
deliver for this symbol: `none` models a payload without a `"ticker"` key.
The third component records whether an upstream fetch was dispatched (it is
`false` exactly on the cache-hit early return). -/
def get_quote (cache : TTLCache Quote) (now : ℚ) (symbol : String)
    (upstream : Option MassiveSnapshotTicker) : Option Quote × TTLCache Quote × Bool :=
  let symbolU := upper symbol
  let g := cache.get now symbolU
  match g.1 with
  | some q => (some q, g.2, false)
  | none =>
    match upstream with
    | none => (none, g.2, true)
    | some snapshot =>
      match resolve_price snapshot with
      | none => (none, g.2, true)
      | some price =>
        let quote : Quote :=
          { symbol := symbolU, price := price,
            change_pct := snapshot.todaysChangePerc.getD 0,
            volume := some (int_trunc ((resolve_volume snapshot).getD 0)) }
        (some quote, g.2.set now symbolU quote, true)

lemma TTLCache.get_none_lookup {α : Type} (c : TTLCache α) (now : ℚ) (k : String)
    (h : (c.get now k).1 = none) : ((c.get now k).2).store.lookup k = none := by
  unfold TTLCache.get at h ⊢
  cases hl : c.store.lookup k with
  | none =>
    simp only [hl]
  | some ev =>
    obtain ⟨exp, v⟩ := ev
    simp only [hl] at h ⊢
    by_cases hlt : exp < now
    · rw [if_pos hlt]
      exact TTLCache.lookup_filter_ne _ _
    · rw [if_neg hlt] at h
      exact absurd h (by simp)

lemma TTLCache.get_of_lookup_none {α : Type} (c : TTLCache α) (now : ℚ) (k : String)
    (h : c.store.lookup k = none) : c.get now k = (none, c) := by
  unfold TTLCache.get
  rw [h]

/-- Claim C10 (amended): when the cache read for the symbol misses and the
upstream snapshot has no resolvable price, `get_quote` returns absent,
performs no cache write (the resulting cache is exactly the post-read cache,
whose only possible difference from the initial one is the lazy removal of
an already-expired entry for that symbol), and an immediately repeated
`get_quote` — at any later time — dispatches another upstream fetch. -/
theorem claim_C10 (cache : TTLCache Quote) (now now2 : ℚ) (symbol : String)
    (snapshot : MassiveSnapshotTicker)
    (hmiss : (cache.get now (upper symbol)).1 = none)
    (hprice : resolve_price snapshot = none) :
    (get_quote cache now symbol (some snapshot)).1 = none ∧
    (get_quote cache now symbol (some snapshot)).2.1 = (cache.get now (upper symbol)).2 ∧
    (get_quote cache now symbol (some snapshot)).2.2 = true ∧
    (get_quote ((get_quote cache now symbol (some snapshot)).2.1) now2 symbol
      (some snapshot)).2.2 = true := by
  have h1 : get_quote cache now symbol (some snapshot) =
      (none, (cache.get now (upper symbol)).2, true) := by
    simp only [get_quote, hmiss, hprice]
  refine ⟨by rw [h1], by rw [h1], by rw [h1], ?_⟩
  have h2 : ((cache.get now (upper symbol)).2).store.lookup (upper symbol) = none :=
    TTLCache.get_none_lookup cache now (upper symbol) hmiss
  rw [h1]
  simp only [get_quote, TTLCache.get_of_lookup_none _ now2 _ h2, hprice]

/-- Witness for C10 at a concrete empty cache and a snapshot with neither a
last-trade price nor a day close. -/
theorem claim_C10_witness :
    (get_quote ⟨30, []⟩ 0 "aaa" (some ⟨"AAA", none, none, none⟩)).1 = none ∧
    (get_quote ⟨30, []⟩ 0 "aaa" (some ⟨"AAA", none, none, none⟩)).2.1 =
      ((⟨30, []⟩ : TTLCache Quote).get 0 (upper "aaa")).2 ∧
    (get_quote ⟨30, []⟩ 0 "aaa" (some ⟨"AAA", none, none, none⟩)).2.2 = true ∧
    (get_quote ((get_quote ⟨30, []⟩ 0 "aaa" (some ⟨"AAA", none, none, none⟩)).2.1) 5 "aaa"
      (some ⟨"AAA", none, none, none⟩)).2.2 = true :=
  claim_C10 ⟨30, []⟩ 0 5 "aaa" ⟨"AAA", none, none, none⟩ (by decide) (by decide)

/-- Counterexample to C10 as stated: if the quote cache holds an
already-expired entry for the symbol, the failed `get_quote` does change the
quote-cache store (the expired entry is lazily removed by the read), so
"leaves the quote cache unchanged" is false in general. -/
theorem claim_C10_counterexample :
    resolve_price ⟨"AAA", none, none, none⟩ = none ∧
    (get_quote ⟨30, [("AAA", 10, ⟨"AAA", 1, 0, none, none⟩)]⟩ 50 "AAA"
      (some ⟨"AAA", none, none, none⟩)).1 = none ∧
    (get_quote ⟨30, [("AAA", 10, ⟨"AAA", 1, 0, none, none⟩)]⟩ 50 "AAA"
      (some ⟨"AAA", none, none, none⟩)).2.1 ≠
      ⟨30, [("AAA", 10, ⟨"AAA", 1, 0, none, none⟩)]⟩ := by
  refine ⟨by decide, by decide, by decide⟩

/-! ## Retry/backoff loop (`MassiveProvider._fetch_json`)

The loop is pure policy: per attempt number it reacts to the upstream
outcome.  Sleeps are timing only and are dropped.  `outcomes a` is what the
upstream does on the `a`-th dispatched request (1-based, matching the
`attempt` counter in the source). -/

/-- The body of a 2xx/3xx response after `raise_for_status`: a JSON object
(identified by an opaque payload id), a valid JSON non-object, or a
non-JSON body. -/
inductive Body where
  | obj (payload : ℕ)
  | nonObj
  | invalid
deriving DecidableEq, Repr

/-- The outcome of one attempt: a transport exception (`httpx.RequestError`,
which includes `TimeoutException`), identified opaquely, or an HTTP
response with a status code and body. -/
inductive Outcome where
  | exc (eid : ℕ)
  | http (code : ℕ) (body : Body)
deriving DecidableEq, Repr

/-- The exceptions `_fetch_json` can raise:
`transport e` re-raises a stored transport exception, `serverError a code`
is the `httpx.HTTPStatusError("Server error", ...)` built on attempt `a`,
`clientStatus code` comes from `response.raise_for_status()`,
`invalidJson`/`nonObject` are the `ValueError`/`TypeError` for malformed
bodies, and `runtime` is the final
`RuntimeError("Failed to fetch data from Massive API")`. -/
inductive FetchErr where
  | transport (eid : ℕ)
  | serverError (attempt code : ℕ)
  | clientStatus (code : ℕ)
  | invalidJson
  | nonObject
  | runtime
deriving DecidableEq, Repr

/-- Is the raised exception one of the transient upstream errors the loop
stores (`last_error`)? -/
def FetchErr.isTransientErr : FetchErr → Bool
  | .transport _ => true
  | .serverError _ _ => true
  | _ => false

/-- Model of `while attempt < self._max_retries` body, with `remaining =
max_retries - attempt` as the structural fuel.  Returns the loop result
together with the number of attempts dispatched in total. -/
def fetch_json_loop (outcomes : ℕ → Outcome) (attempt : ℕ) (last_error : Option FetchErr) :
    ℕ → Except FetchErr ℕ × ℕ
  | 0 =>
    (match last_error with
     | some e => .error e
     | none => .error .runtime, attempt)
  | remaining + 1 =>
    let a := attempt + 1
    match outcomes a with
    | .exc eid => fetch_json_loop outcomes a (some (.transport eid)) remaining
    | .http code body =>
      if code = 429 then fetch_json_loop outcomes a last_error remaining
      else if 500 ≤ code then fetch_json_loop outcomes a (some (.serverError a code)) remaining
      else if 400 ≤ code then (.error (.clientStatus code), a)
      else
        match body with
        | .obj payload => (.ok payload, a)
        | .nonObj => (.error .nonObject, a)
        | .invalid => (.error .invalidJson, a)

/-- Model of `_fetch_json` for one logical fetch against upstream behaviour
`outcomes`, with `max_retries` as configured (default 3). -/
def fetch_json (outcomes : ℕ → Outcome) (max_retries : ℕ) : Except FetchErr ℕ × ℕ :=
  fetch_json_loop outcomes 0 none max_retries

/-- An outcome is a transient fault: timeout/connection error, HTTP 429, or
HTTP 5xx. -/
def transientOutcome : Outcome → Bool
  | .exc _ => true
  | .http code _ => code = 429 || 500 ≤ code

/-- What the source remembers in `last_error` for the outcome of attempt
`a`: transport errors and 5xx responses are stored, 429 responses are not. -/
def remembered (a : ℕ) : Outcome → Option FetchErr
  | .exc eid => some (.transport eid)
  | .http code _ => if 500 ≤ code then some (.serverError a code) else none

/-- The `last_error` value after attempts `attempt+1 .. attempt+n` when all
of them are transient. -/
def last_remembered (outcomes : ℕ → Outcome) (attempt : ℕ) (acc : Option FetchErr) :
    ℕ → Option FetchErr
  | 0 => acc
  | n + 1 =>
    last_remembered outcomes (attempt + 1)
      (match remembered (attempt + 1) (outcomes (attempt + 1)) with
       | some e => some e
       | none => acc) n

lemma fetch_json_loop_transient_step (outcomes : ℕ → Outcome) (attempt : ℕ)
    (last_error : Option FetchErr) (remaining : ℕ)
    (h : transientOutcome (outcomes (attempt + 1)) = true) :
    fetch_json_loop outcomes attempt last_error (remaining + 1) =
      fetch_json_loop outcomes (attempt + 1)
        (match remembered (attempt + 1) (outcomes (attempt + 1)) with
         | some e => some e
         | none => last_error) remaining := by
  cases ho : outcomes (attempt + 1) with
  | exc eid => simp [fetch_json_loop, ho, remembered]
  | http code body =>
    rw [ho] at h
    simp only [transientOutcome, Bool.or_eq_true, decide_eq_true_eq] at h
    rcases h with h429 | h5xx
    · subst h429
      simp [fetch_json_loop, ho, remembered]
    · have hne : ¬(code = 429) := by omega
      simp [fetch_json_loop, ho, remembered, hne, h5xx]

lemma fetch_json_loop_all_transient (outcomes : ℕ → Outcome) :
    ∀ (remaining attempt : ℕ) (last_error : Option FetchErr),
    (∀ a, attempt < a → a ≤ attempt + remaining → transientOutcome (outcomes a) = true) →
    fetch_json_loop outcomes attempt last_error remaining =
      ((last_remembered outcomes attempt last_error remaining).elim
        (Except.error .runtime) Except.error, attempt + remaining)
  | 0, attempt, last_error, _ => by
    cases last_error <;> simp [fetch_json_loop, last_remembered, Option.elim]
  | remaining + 1, attempt, last_error, h => by
    rw [fetch_json_loop_transient_step outcomes attempt last_error remaining
      (h (attempt + 1) (by omega) (by omega))]
    rw [fetch_json_loop_all_transient outcomes remaining (attempt + 1) _
      (fun a h₁ h₂ => h a (by omega) (by omega))]
    simp only [last_remembered]
    congr 1
    omega

/-- Claim C3 (amended): if all three attempts fail with transient faults,
`_fetch_json` makes exactly 3 attempts and then raises the last *stored*
transient error — transport errors and 5xx responses are stored, 429
responses are retried but never stored — falling back to a generic
`RuntimeError` when no attempt stored an error (i.e. every attempt was a
429). -/
theorem claim_C3 (outcomes : ℕ → Outcome)
    (h1 : transientOutcome (outcomes 1) = true)
    (h2 : transientOutcome (outcomes 2) = true)
    (h3 : transientOutcome (outcomes 3) = true) :
    fetch_json outcomes 3 =
      ((last_remembered outcomes 0 none 3).elim (Except.error .runtime) Except.error, 3) := by
  unfold fetch_json
  rw [fetch_json_loop_all_transient outcomes 3 0 none ?_]
  intro a ha₁ ha₂
  interval_cases a
  · exact h1
  · exact h2
  · exact h3

/-- Witness for C3: a timeout on attempt 1 and 503 responses on attempts 2
and 3 produce exactly 3 attempts and raise the `HTTPStatusError` stored on
attempt 3. -/
theorem claim_C3_witness :
    fetch_json (fun a => if a = 1 then .exc 7 else .http 503 .invalid) 3 =
      (Except.error (.serverError 3 503), 3) := by
  have h := claim_C3 (fun a => if a = 1 then .exc 7 else .http 503 .invalid)
    (by decide) (by decide) (by decide)
  simpa [last_remembered, remembered] using h

/-- Counterexample to C3 as stated: an upstream that always answers 429 is
transient on every attempt, and the adapter does make exactly 3 attempts,
but it then raises the generic `RuntimeError` — which is not a transient
upstream error at all, let alone the last one observed (429 responses are
never stored in `last_error`). -/
theorem claim_C3_counterexample :
    transientOutcome (Outcome.http 429 .invalid) = true ∧
    fetch_json (fun _ => .http 429 .invalid) 3 = (Except.error .runtime, 3) ∧
    FetchErr.runtime.isTransientErr = false := by
  refine ⟨by decide, by rfl, by decide⟩

/-! ## Backtesting engine (`app/services/backtesting/engine.py`, `models.py`)

Metric values are real numbers because `_cagr` uses a fractional power and
`_sharpe` a square root; every other quantity stays in `ℚ`.  The pandas
float edge cases that no claim exercises are noted where they arise:
`pct_change` over a zero close and a `cumulative / cummax` quotient with a
zero running maximum are `±inf`/NaN in pandas but total rational division
(yielding 0) here — every claim about these functions assumes strictly
positive closes, for which the two semantics agree. -/

def TRADING_DAYS : ℚ := 252

def RISK_FREE_RATE : ℚ := 5 / 1000

/-- Model of `df["close"].pct_change().dropna()`: consecutive fractional changes,
with the undefined first entry dropped. -/
def pct_change (closes : List ℚ) : List ℚ :=
  List.zipWith (fun prev next => (next - prev) / prev) closes closes.tail

/-- Series mean (`pandas .mean()`). -/
def meanQ (l : List ℚ) : ℚ := l.sum / l.length

/-- Model of `pandas .std()` squared: the sample variance with `ddof = 1`.  For a
single observation pandas yields NaN, which `_sharpe` filters with
`math.isnan`; here the division by zero yields `0`, which the same guard
(`std == 0`) filters, so the observable behaviour agrees. -/
def sampleVar (l : List ℚ) : ℚ :=
  ((l.map (fun x => (x - meanQ l) ^ 2)).sum) / ((l.length : ℚ) - 1)

/-- Model of `pandas .cumprod()` with running accumulator `acc`. -/
def cumprodAux (acc : ℚ) : List ℚ → List ℚ
  | [] => []
  | x :: xs => (acc * x) :: cumprodAux (acc * x) xs

def cumprod (l : List ℚ) : List ℚ := cumprodAux 1 l

/-- Model of `pandas .cummax()` with running accumulator. -/
def runningMaxAux (acc : ℚ) : List ℚ → List ℚ
  | [] => []
  | x :: xs => (max acc x) :: runningMaxAux (max acc x) xs

def runningMax : List ℚ → List ℚ
  | [] => []
  | x :: xs => x :: runningMaxAux x xs

/-- Model of `pandas .min()` of a series of (non-NaN) values. -/
def listMin : List ℚ → ℚ
  | [] => 0
  | x :: xs => xs.foldl min x

/-- Model of `_cagr` from `engine.py`: `(1 + total) ** (252 / n) - 1` on the final
cumulative return, 0 for series of length ≤ 1.  The real power `^` is
`Real.rpow`; the source wraps the power in `try/except ValueError` for bases
where float exponentiation fails — no claim exercises a non-positive base,
where `Real.rpow` and Python float semantics part ways. -/
noncomputable def cagr (series : List ℚ) : ℝ :=
  match series.getLast? with
  | none => 0
  | some total =>
    if series.length ≤ 1 then 0
    else (1 + (total : ℝ)) ^ ((TRADING_DAYS : ℝ) / (series.length : ℝ)) - 1

/-- Model of `excess = returns - (RISK_FREE_RATE / TRADING_DAYS)` from `_sharpe`. -/
def excess (returns : List ℚ) : List ℚ :=
  returns.map (fun r => r - RISK_FREE_RATE / TRADING_DAYS)

/-- Model of `_sharpe` from `engine.py`: annualized mean excess return over the
sample standard deviation, 0 when the standard deviation is 0 or NaN
(both exactly the case `sampleVar = 0` here). -/
noncomputable def sharpe (returns : List ℚ) : ℝ :=
  if returns.isEmpty then 0
  else if sampleVar (excess returns) = 0 then 0
  else ((meanQ (excess returns) : ℝ) * (TRADING_DAYS : ℝ)) /
    Real.sqrt ((sampleVar (excess returns) : ℝ))

/-- Model of `_max_drawdown` from `engine.py`: minimum of
`cumprod(1 + r) / cummax(cumprod(1 + r)) - 1`, 0 on an empty series. -/
def max_drawdown (equity_curve : List ℚ) : ℚ :=
  if equity_curve.isEmpty then 0
  else
    let cumulative := cumprod (equity_curve.map (fun r => 1 + r))
    let drawdowns := List.zipWith (fun c m => c / m - 1) cumulative (runningMax cumulative)
    listMin drawdowns

/-- Model of `BacktestRequest` from `backtesting/models.py`. -/
structure BacktestRequest where
  symbols : List String
  period : String := "1y"
  profile : RiskProfile := RiskProfile.BALANSERAD

def BacktestRequest.normalized_symbols (r : BacktestRequest) : List String :=
  r.symbols.map upper

/-- Model of `SymbolBacktestResult` from `backtesting/models.py`. -/
structure SymbolBacktestResult where
  symbol : String
  cagr : ℝ
  sharpe : ℝ
  max_drawdown : ℝ

/-- Model of `EquityPoint` from `backtesting/models.py` (timestamp modelled by its
parsed value, as for `Candle`). -/
structure EquityPoint where
  timestamp : ℤ
  value : ℚ

/-- Model of `BacktestResult` from `backtesting/models.py`; the `metrics` dict is an
association list in insertion order. -/
structure BacktestResult where
  profile : RiskProfile
  period : String
  symbols : List SymbolBacktestResult
  equity_curve : List EquityPoint
  metrics : List (String × ℝ)

/-- The body of the per-symbol loop in `run_backtest`: `None` models
`continue` (empty dataframe or no usable returns); otherwise the
`SymbolBacktestResult` together with the timestamp-indexed cumulative
return series appended to `equity_values`. -/
noncomputable def run_symbol (provider : String → String → List Candle) (period symbol : String) :
    Option (SymbolBacktestResult × List (ℤ × ℚ)) :=
  let candles := provider symbol period
  let df := candles_to_dataframe candles
  if df.isEmpty then none
  else
    let returns := pct_change (df.map Candle.close)
    if returns.isEmpty then none
    else
      let cumulative_returns := (cumprod (returns.map (fun r => 1 + r))).map (fun x => x - 1)
      some (⟨symbol, cagr cumulative_returns, sharpe returns, (max_drawdown returns : ℝ)⟩,
        ((df.map Candle.timestamp).tail).zip cumulative_returns)

/-- Forward-fill lookup of an ascending timestamp-indexed series
(`fillna(method="ffill").fillna(0.0)` after outer-join alignment): the value
at the greatest index `≤ t`, or `0` if the series starts after `t`. -/
def ffillAt (s : List (ℤ × ℚ)) (t : ℤ) : ℚ :=
  (((s.filter (fun p => p.1 ≤ t)).getLast?).map Prod.snd).getD 0

/-- The sorted union of all series indices (the outer-join index of
`pd.concat(..., axis=1)`). -/
def indexUnion (evs : List (List (ℤ × ℚ))) : List ℤ :=
  ((evs.map (fun s => s.map Prod.fst)).flatten.insertionSort (· ≤ ·)).dedup

/-- Model of `run_backtest` from `engine.py`, as a pure function of the provider
history map (`provider.get_history`) and the request. -/
noncomputable def run_backtest (provider : String → String → List Candle)
    (request : BacktestRequest) : BacktestResult :=
  let symbols := request.normalized_symbols
  let per := symbols.filterMap (run_symbol provider request.period)
  let symbol_results := per.map Prod.fst
  let equity_values := per.map Prod.snd
  if equity_values.isEmpty then
    ⟨request.profile, request.period, [], [], []⟩
  else
    let idx := indexUnion equity_values
    let portfolio_returns := idx.map (fun t => meanQ (equity_values.map (fun s => ffillAt s t)))
    let portfolio_equity := cumprod (portfolio_returns.map (fun r => 1 + r))
    let equity_curve := (idx.zip portfolio_equity).map (fun p => EquityPoint.mk p.1 p.2)
    let metrics := [("cagr", cagr (portfolio_equity.map (fun x => x - 1))),
                    ("sharpe", sharpe portfolio_returns),
                    ("max_drawdown", (max_drawdown portfolio_returns : ℝ))]
    ⟨request.profile, request.period, symbol_results, equity_curve, metrics⟩

/-- Claim C4: if every requested symbol has an empty history, `run_backtest`
returns normally (it is total here, and the corresponding source path raises
nothing) with an empty per-symbol result list, an empty equity curve and an
empty metrics map. -/
theorem claim_C4 (provider : String → String → List Candle) (request : BacktestRequest)
    (h : ∀ s ∈ request.normalized_symbols, provider s request.period = []) :
    run_backtest provider request =
      ⟨request.profile, request.period, [], [], []⟩ := by
  have hfm : request.normalized_symbols.filterMap (run_symbol provider request.period) = [] := by
    rw [List.filterMap_eq_nil_iff]
    intro s hs
    unfold run_symbol
    rw [h s hs]
    rfl
  simp only [run_backtest, hfm, List.map_nil, List.isEmpty_nil, if_pos]

/-- Witness for C4: a concrete two-symbol request against a provider with no
candles for any symbol. -/
theorem claim_C4_witness :
    run_backtest (fun _ _ => []) ⟨["aaa", "BBB"], "1y", RiskProfile.BALANSERAD⟩ =
      ⟨RiskProfile.BALANSERAD, "1y", [], [], []⟩ :=
  claim_C4 (fun _ _ => []) ⟨["aaa", "BBB"], "1y", RiskProfile.BALANSERAD⟩ (fun _ _ => rfl)

/-! ### Support lemmas for the rising-price scenario (C8) -/

lemma isEmpty_false_of_ne_nil {α : Type} {l : List α} (h : l ≠ []) : l.isEmpty = false := by
  cases l with
  | nil => exact absurd rfl h
  | cons a t => rfl

lemma sorted_of_ts_chain {l : List Candle}
    (h : List.Chain' (fun a b : Candle => a.timestamp < b.timestamp) l) :
    List.Sorted byTimestamp l := by
  haveI : IsTrans Candle (fun a b : Candle => a.timestamp < b.timestamp) :=
    ⟨fun _ _ _ h₁ h₂ => lt_trans h₁ h₂⟩
  exact (List.chain'_iff_pairwise.mp h).imp (fun hab => le_of_lt hab)

lemma candles_to_dataframe_sorted {l : List Candle}
    (h : List.Chain' (fun a b : Candle => a.timestamp < b.timestamp) l) :
    candles_to_dataframe l = l :=
  (sorted_of_ts_chain h).insertionSort_eq

lemma pct_change_cons (a b : ℚ) (t : List ℚ) :
    pct_change (a :: b :: t) = ((b - a) / a) :: pct_change (b :: t) := rfl

lemma pct_change_pos : ∀ (q : List ℚ), List.Chain' (· < ·) q → (∀ x ∈ q, 0 < x) →
    ∀ y ∈ pct_change q, 0 < y
  | [], _, _, y, hy => by simp [pct_change] at hy
  | [a], _, _, y, hy => by simp [pct_change] at hy
  | a :: b :: t, hc, hpos, y, hy => by
    rw [pct_change_cons, List.mem_cons] at hy
    rcases hy with rfl | hy
    · have ha : 0 < a := hpos a (by simp)
      have hab : a < b := (List.chain'_cons.mp hc).1
      exact div_pos (sub_pos.mpr hab) ha
    · exact pct_change_pos (b :: t) (List.chain'_cons.mp hc).2
        (fun x hx => hpos x (List.mem_cons_of_mem a hx)) y hy

lemma pct_change_length : ∀ (q : List ℚ), (pct_change q).length = q.length - 1
  | [] => rfl
  | a :: t => by
    simp only [pct_change, List.length_zipWith, List.tail_cons, List.length_cons]
    omega

lemma cumprodAux_length (acc : ℚ) : ∀ l : List ℚ, (cumprodAux acc l).length = l.length
  | [] => rfl
  | x :: xs => by
    simp only [cumprodAux, List.length_cons, cumprodAux_length (acc * x) xs]

lemma cumprodAux_getLast (acc x : ℚ) : ∀ xs : List ℚ,
    (cumprodAux acc (x :: xs)).getLast? = some (acc * (x :: xs).prod)
  | [] => by simp [cumprodAux]
  | y :: t => by
    rw [show cumprodAux acc (x :: y :: t)
        = (acc * x) :: cumprodAux (acc * x) (y :: t) from rfl]
    rw [show cumprodAux (acc * x) (y :: t)
        = ((acc * x) * y) :: cumprodAux ((acc * x) * y) t from rfl,
      List.getLast?_cons_cons]
    rw [show ((acc * x) * y) :: cumprodAux ((acc * x) * y) t
        = cumprodAux (acc * x) (y :: t) from rfl]
    rw [cumprodAux_getLast (acc * x) y t]
    congr 1
    simp only [List.prod_cons]
    ring

lemma cumprodAux_chain (acc : ℚ) : ∀ l : List ℚ, 0 < acc → (∀ x ∈ l, 1 < x) →
    List.Chain (· < ·) acc (cumprodAux acc l)
  | [], _, _ => List.Chain.nil
  | x :: xs, hacc, hl => by
    have hx : 1 < x := hl x (by simp)
    have hmul : 0 < acc * x := mul_pos hacc (lt_trans one_pos hx)
    refine List.Chain.cons (by nlinarith) ?_
    exact cumprodAux_chain (acc * x) xs hmul (fun y hy => hl y (List.mem_cons_of_mem x hy))

lemma chain_lt_all_pos : ∀ {l : List ℚ} {acc : ℚ}, 0 < acc →
    List.Chain (· < ·) acc l → ∀ y ∈ l, 0 < y := by
  intro l
  induction l with
  | nil => intro acc _ _ y hy; simp at hy
  | cons b t ih =>
    intro acc hacc h y hy
    have hb : acc < b := (List.chain_cons.mp h).1
    have hbpos : 0 < b := lt_trans hacc hb
    rcases List.mem_cons.mp hy with rfl | hy
    · exact hbpos
    · exact ih hbpos (List.chain_cons.mp h).2 y hy

lemma runningMaxAux_of_chain : ∀ (l : List ℚ) (acc : ℚ), List.Chain (· ≤ ·) acc l →
    runningMaxAux acc l = l
  | [], _, _ => rfl
  | x :: xs, acc, h => by
    have h1 : acc ≤ x := (List.chain_cons.mp h).1
    simp only [runningMaxAux, max_eq_right h1]
    rw [runningMaxAux_of_chain xs x (List.chain_cons.mp h).2]

lemma runningMax_of_chain' : ∀ (l : List ℚ), List.Chain' (· ≤ ·) l → runningMax l = l
  | [], _ => rfl
  | x :: xs, h => by
    simp only [runningMax]
    rw [runningMaxAux_of_chain xs x h]

lemma zipWith_self_q (f : ℚ → ℚ → ℚ) : ∀ l : List ℚ,
    List.zipWith f l l = l.map (fun x => f x x)
  | [] => rfl
  | x :: xs => by
    simp only [List.zipWith_cons_cons, List.map_cons, zipWith_self_q f xs]

lemma foldl_min_zero : ∀ (xs : List ℚ), (∀ y ∈ xs, y = 0) → xs.foldl min 0 = 0
  | [], _ => rfl
  | x :: xs, h => by
    rw [List.foldl_cons, h x (by simp), min_self]
    exact foldl_min_zero xs (fun y hy => h y (List.mem_cons_of_mem x hy))

lemma listMin_zeros (l : List ℚ) (h : ∀ y ∈ l, y = 0) : listMin l = 0 := by
  cases l with
  | nil => rfl
  | cons x xs =>
    have hx : x = 0 := h x (by simp)
    rw [listMin, hx]
    exact foldl_min_zero xs (fun y hy => h y (List.mem_cons_of_mem x hy))

lemma one_lt_prod_list : ∀ l : List ℚ, (∀ x ∈ l, 1 < x) → l ≠ [] → 1 < l.prod
  | [], _, hne => absurd rfl hne
  | [x], h, _ => by simpa using h x (by simp)
  | x :: y :: t, h, _ => by
    have h1 : 1 < x := h x (by simp)
    have h2 : 1 < (y :: t).prod :=
      one_lt_prod_list (y :: t) (fun a ha => h a (List.mem_cons_of_mem x ha)) (by simp)
    rw [List.prod_cons]
    nlinarith

lemma max_drawdown_pos_returns (returns : List ℚ) (hne : returns ≠ [])
    (hpos : ∀ r ∈ returns, 0 < r) : max_drawdown returns = 0 := by
  unfold max_drawdown
  rw [if_neg (by rw [isEmpty_false_of_ne_nil hne]; exact Bool.false_ne_true)]
  have hfac : ∀ x ∈ returns.map (fun r => 1 + r), 1 < x := by
    intro x hx
    rcases List.mem_map.mp hx with ⟨r, hr, rfl⟩
    linarith [hpos r hr]
  have hchain : List.Chain (· < ·) 1 (cumprod (returns.map (fun r => 1 + r))) :=
    cumprodAux_chain 1 (returns.map (fun r => 1 + r)) one_pos hfac
  have hposall : ∀ y ∈ cumprod (returns.map (fun r => 1 + r)), 0 < y :=
    chain_lt_all_pos one_pos hchain
  have hch' : List.Chain' (· ≤ ·) (cumprod (returns.map (fun r => 1 + r))) :=
    (show List.Chain' (· < ·) ((1 : ℚ) :: cumprod (returns.map (fun r => 1 + r))) from
      hchain).tail.imp (fun _ _ hab => le_of_lt hab)
  show listMin (List.zipWith (fun c m => c / m - 1) (cumprod (returns.map (fun r => 1 + r)))
    (runningMax (cumprod (returns.map (fun r => 1 + r))))) = 0
  rw [runningMax_of_chain' _ hch', zipWith_self_q]
  apply listMin_zeros
  intro y hy
  rcases List.mem_map.mp hy with ⟨c, hc, rfl⟩
  rw [div_self (ne_of_gt (hposall c hc))]
  ring

lemma cagr_pos (series : List ℚ) (total : ℚ) (hlast : series.getLast? = some total)
    (hlen : 1 < series.length) (htot : 0 < total) : 0 < cagr series := by
  unfold cagr
  rw [hlast]
  show 0 < if series.length ≤ 1 then (0 : ℝ)
    else (1 + (total : ℝ)) ^ ((TRADING_DAYS : ℝ) / (series.length : ℝ)) - 1
  rw [if_neg (by omega)]
  have hbase : (1 : ℝ) < 1 + (total : ℝ) := by
    have : (0 : ℝ) < (total : ℝ) := by exact_mod_cast htot
    linarith
  have hexp : (0 : ℝ) < (TRADING_DAYS : ℝ) / (series.length : ℝ) := by
    apply div_pos
    · norm_num [TRADING_DAYS]
    · exact_mod_cast Nat.lt_of_le_of_lt (Nat.zero_le 1) hlen
  have h1 : 1 < (1 + (total : ℝ)) ^ ((TRADING_DAYS : ℝ) / (series.length : ℝ)) :=
    (Real.one_lt_rpow_iff_of_pos (by linarith)).mpr (Or.inl ⟨hbase, hexp⟩)
  linarith

lemma sampleVar_nonneg : ∀ l : List ℚ, 0 ≤ sampleVar l
  | [] => by norm_num [sampleVar, meanQ]
  | x :: xs => by
    unfold sampleVar
    apply div_nonneg
    · apply List.sum_nonneg
      intro a ha
      rcases List.mem_map.mp ha with ⟨b, _, rfl⟩
      positivity
    · have : (1 : ℚ) ≤ ((x :: xs).length : ℚ) := by
        exact_mod_cast Nat.succ_le_of_lt (List.length_pos.mpr (by simp))
      linarith

lemma sharpe_pos (returns : List ℚ) (hne : returns ≠ [])
    (hvar : sampleVar (excess returns) ≠ 0)
    (hmean : 0 < meanQ (excess returns)) :
    0 < sharpe returns := by
  unfold sharpe
  rw [if_neg (by rw [isEmpty_false_of_ne_nil hne]; exact Bool.false_ne_true)]
  rw [if_neg hvar]
  apply div_pos
  · apply mul_pos
    · exact_mod_cast hmean
    · norm_num [TRADING_DAYS]
  · apply Real.sqrt_pos.mpr
    have h0 : 0 ≤ sampleVar (excess returns) := sampleVar_nonneg _
    have : 0 < sampleVar (excess returns) := lt_of_le_of_ne h0 (Ne.symm hvar)
    exact_mod_cast this

/-- Claim C8 (amended): for a 200-candle history with positive, strictly
increasing close prices (in timestamp order), the per-symbol backtest
metrics satisfy CAGR > 0 and max drawdown = 0; Sharpe > 0 holds under the
additional hypotheses — which the claim as stated omits — that the 199
daily returns are not all equal (nonzero sample variance of the excess
returns) and that their mean exceeds the per-day risk-free rate
`0.005 / 252`. -/
theorem claim_C8 (hist : List Candle) (symbol period : String) (profile : RiskProfile)
    (hts : List.Chain' (fun a b : Candle => a.timestamp < b.timestamp) hist)
    (hcl : List.Chain' (fun a b : Candle => a.close < b.close) hist)
    (hpos : ∀ c ∈ hist, 0 < c.close)
    (hlen : hist.length = 200)
    (hvar : sampleVar (excess (pct_change (hist.map Candle.close))) ≠ 0)
    (hmean : 0 < meanQ (excess (pct_change (hist.map Candle.close)))) :
    ∃ r : SymbolBacktestResult,
      (run_backtest (fun _ _ => hist) ⟨[symbol], period, profile⟩).symbols = [r] ∧
      0 < r.cagr ∧ 0 < r.sharpe ∧ r.max_drawdown = 0 := by
  have hdf : candles_to_dataframe hist = hist := candles_to_dataframe_sorted hts
  have hne : hist ≠ [] := by
    intro h
    rw [h] at hlen
    exact absurd hlen (by decide)
  have hretlen : (pct_change (hist.map Candle.close)).length = 199 := by
    rw [pct_change_length, List.length_map, hlen]
  have hret_ne : pct_change (hist.map Candle.close) ≠ [] := by
    intro h
    rw [h] at hretlen
    exact absurd hretlen (by decide)
  have hretpos : ∀ y ∈ pct_change (hist.map Candle.close), 0 < y := by
    apply pct_change_pos
    · exact (List.chain'_map Candle.close).mpr hcl
    · intro x hx
      rcases List.mem_map.mp hx with ⟨c, hc, rfl⟩
      exact hpos c hc
  have hfac : ∀ x ∈ (pct_change (hist.map Candle.close)).map (fun r => 1 + r), 1 < x := by
    intro x hx
    rcases List.mem_map.mp hx with ⟨r, hr, rfl⟩
    linarith [hretpos r hr]
  have hfac_ne : (pct_change (hist.map Candle.close)).map (fun r => 1 + r) ≠ [] := by
    simpa using hret_ne
  have hprod : 1 < ((pct_change (hist.map Candle.close)).map (fun r => 1 + r)).prod :=
    one_lt_prod_list _ hfac hfac_ne
  obtain ⟨f, fs, hffs⟩ := List.exists_cons_of_ne_nil hfac_ne
  have hcumlast :
      ((cumprod ((pct_change (hist.map Candle.close)).map (fun r => 1 + r))).map
        (fun x => x - 1)).getLast? =
      some (((pct_change (hist.map Candle.close)).map (fun r => 1 + r)).prod - 1) := by
    rw [List.getLast?_map, hffs,
      show cumprod (f :: fs) = cumprodAux 1 (f :: fs) from rfl, cumprodAux_getLast]
    simp
  have hcumlen :
      ((cumprod ((pct_change (hist.map Candle.close)).map (fun r => 1 + r))).map
        (fun x => x - 1)).length = 199 := by
    rw [List.length_map, show cumprod _ = cumprodAux 1 _ from rfl, cumprodAux_length,
      List.length_map, hretlen]
  have hcagr : 0 < cagr ((cumprod ((pct_change (hist.map Candle.close)).map
      (fun r => 1 + r))).map (fun x => x - 1)) :=
    cagr_pos _ _ hcumlast (by omega) (by linarith)
  have hsharpe : 0 < sharpe (pct_change (hist.map Candle.close)) :=
    sharpe_pos _ hret_ne hvar hmean
  have hdd : max_drawdown (pct_change (hist.map Candle.close)) = 0 :=
    max_drawdown_pos_returns _ hret_ne hretpos
  have hrs : run_symbol (fun _ _ => hist) period (upper symbol) =
      some (⟨upper symbol,
        cagr ((cumprod ((pct_change (hist.map Candle.close)).map
          (fun r => 1 + r))).map (fun x => x - 1)),
        sharpe (pct_change (hist.map Candle.close)),
        ((max_drawdown (pct_change (hist.map Candle.close)) : ℚ) : ℝ)⟩,
        ((hist.map Candle.timestamp).tail).zip
          ((cumprod ((pct_change (hist.map Candle.close)).map
            (fun r => 1 + r))).map (fun x => x - 1))) := by
    simp only [run_symbol, hdf, isEmpty_false_of_ne_nil hne,
      isEmpty_false_of_ne_nil hret_ne, Bool.false_eq_true, if_false]
  refine ⟨⟨upper symbol,
      cagr ((cumprod ((pct_change (hist.map Candle.close)).map
        (fun r => 1 + r))).map (fun x => x - 1)),
      sharpe (pct_change (hist.map Candle.close)),
      ((max_drawdown (pct_change (hist.map Candle.close)) : ℚ) : ℝ)⟩,
    ?_, hcagr, hsharpe, by rw [hdd]; norm_num⟩
  simp only [run_backtest, BacktestRequest.normalized_symbols, List.map_cons, List.map_nil,
    List.filterMap_cons, List.filterMap_nil, hrs]
  simp

/-- Executable check for `List.Chain'` (the derived `Decidable` instance for
`Chain'` does not reduce; this structural Boolean version does). -/
def chainB {α : Type} (f : α → α → Bool) : List α → Bool
  | [] => true
  | [_] => true
  | a :: b :: t => f a b && chainB f (b :: t)

lemma chain'_of_chainB {α : Type} {R : α → α → Prop} [DecidableRel R] :
    ∀ {l : List α}, chainB (fun a b => decide (R a b)) l = true → List.Chain' R l
  | [], _ => List.chain'_nil
  | [_], _ => List.chain'_singleton _
  | a :: b :: t, h => by
    rw [chainB, Bool.and_eq_true] at h
    exact List.chain'_cons.mpr ⟨of_decide_eq_true h.1, chain'_of_chainB h.2⟩

/-- A 200-candle synthetic history with strictly increasing closes whose
daily returns are not all equal: closes `2 ^ i` for `i < 199`, then
`3 * 2 ^ 198`. -/
def histC8 : List Candle :=
  ((List.range 199).map (fun i => ⟨(i : ℤ), 2 ^ i, 2 ^ i, 2 ^ i, 2 ^ i, 0⟩)) ++
    [⟨199, 3 * 2 ^ 198, 3 * 2 ^ 198, 3 * 2 ^ 198, 3 * 2 ^ 198, 0⟩]

set_option maxRecDepth 100000 in
/-- Witness for C8 at the concrete history `histC8`. -/
theorem claim_C8_witness :
    ∃ r : SymbolBacktestResult,
      (run_backtest (fun _ _ => histC8)
        ⟨["AAA"], "1y", RiskProfile.BALANSERAD⟩).symbols = [r] ∧
      0 < r.cagr ∧ 0 < r.sharpe ∧ r.max_drawdown = 0 :=
  claim_C8 histC8 "AAA" "1y" RiskProfile.BALANSERAD
    (chain'_of_chainB (of_decide_eq_true (by with_unfolding_all rfl)))
    (chain'_of_chainB (of_decide_eq_true (by with_unfolding_all rfl)))
    (of_decide_eq_true (by with_unfolding_all rfl))
    (of_decide_eq_true (by with_unfolding_all rfl))
    (of_decide_eq_true (by with_unfolding_all rfl))
    (of_decide_eq_true (by with_unfolding_all rfl))

/-- A 200-candle geometric history: closes `2 ^ i`, so every daily return
equals `1`. -/
def histGeo : List Candle :=
  (List.range 200).map (fun i => ⟨(i : ℤ), 2 ^ i, 2 ^ i, 2 ^ i, 2 ^ i, 0⟩)

set_option maxRecDepth 100000 in
/-- Counterexample to C8 as stated: `histGeo` is a 200-candle history with
positive, strictly increasing closes, yet the per-symbol Sharpe ratio of the
backtest is `0`, not `> 0`: all 199 daily returns are equal, so the sample
standard deviation of the excess returns is zero and `_sharpe` takes its
degenerate branch. -/
theorem claim_C8_counterexample :
    histGeo.length = 200 ∧
    List.Chain' (fun a b : Candle => a.timestamp < b.timestamp) histGeo ∧
    List.Chain' (fun a b : Candle => a.close < b.close) histGeo ∧
    histGeo.all (fun c => decide (0 < c.close)) = true ∧
    ((run_backtest (fun _ _ => histGeo)
      ⟨["AAA"], "1y", RiskProfile.BALANSERAD⟩).symbols.map
        SymbolBacktestResult.sharpe) = [0] := by
  refine ⟨of_decide_eq_true (by with_unfolding_all rfl),
    chain'_of_chainB (of_decide_eq_true (by with_unfolding_all rfl)),
    chain'_of_chainB (of_decide_eq_true (by with_unfolding_all rfl)),
    of_decide_eq_true (by with_unfolding_all rfl), ?_⟩
  have hdf : candles_to_dataframe histGeo = histGeo :=
    candles_to_dataframe_sorted
      (chain'_of_chainB (of_decide_eq_true (by with_unfolding_all rfl)))
  have hne : histGeo ≠ [] := of_decide_eq_true (by with_unfolding_all rfl)
  have hret_ne : pct_change (histGeo.map Candle.close) ≠ [] :=
    of_decide_eq_true (by with_unfolding_all rfl)
  have hret : pct_change (histGeo.map Candle.close) = List.replicate 199 1 :=
    of_decide_eq_true (by with_unfolding_all rfl)
  have hsh : sharpe (List.replicate 199 (1 : ℚ)) = 0 := by
    unfold sharpe
    rw [if_neg (by decide), if_pos (of_decide_eq_true (by with_unfolding_all rfl))]
  have hrs : run_symbol (fun _ _ => histGeo) "1y" (upper "AAA") =
      some (⟨upper "AAA",
        cagr ((cumprod ((pct_change (histGeo.map Candle.close)).map
          (fun r => 1 + r))).map (fun x => x - 1)),
        sharpe (pct_change (histGeo.map Candle.close)),
        ((max_drawdown (pct_change (histGeo.map Candle.close)) : ℚ) : ℝ)⟩,
        ((histGeo.map Candle.timestamp).tail).zip
          ((cumprod ((pct_change (histGeo.map Candle.close)).map
            (fun r => 1 + r))).map (fun x => x - 1))) := by
    simp only [run_symbol, hdf, isEmpty_false_of_ne_nil hne,
      isEmpty_false_of_ne_nil hret_ne, Bool.false_eq_true, if_false]
  rw [hret] at hrs
  simp only [run_backtest, BacktestRequest.normalized_symbols, List.map_cons, List.map_nil,
    List.filterMap_cons, List.filterMap_nil, hrs, List.isEmpty_cons, Bool.false_eq_true,
    if_false]
  simp only [List.map_cons, List.map_nil, hsh]

/-! ## Permutation invariance of scoring (C9) -/

/-- Strict-or-equal timestamp order; antisymmetric, which the plain `≤` on
timestamps is not (two distinct candles can share a timestamp). -/
def byTimestampStrict (a b : Candle) : Prop := a.timestamp < b.timestamp ∨ a = b

instance : IsAntisymm Candle byTimestampStrict :=
  ⟨by
    intro a b hab hba
    rcases hab with h₁ | rfl
    · rcases hba with h₂ | rfl
      · exact absurd (lt_trans h₁ h₂) (lt_irrefl _)
      · rfl
    · rfl⟩

lemma sorted_strict_of_sorted_nodup {l : List Candle} (hs : List.Sorted byTimestamp l)
    (hnd : (l.map Candle.timestamp).Nodup) : List.Sorted byTimestampStrict l := by
  have hne : List.Pairwise (fun a b : Candle => a.timestamp ≠ b.timestamp) l :=
    List.pairwise_map.mp hnd
  exact (hs.and hne).imp (fun h => Or.inl (lt_of_le_of_ne h.1 h.2))

lemma insertionSort_eq_of_perm_nodup (l₁ l₂ : List Candle) (hp : l₁.Perm l₂)
    (hnd : (l₁.map Candle.timestamp).Nodup) :
    l₁.insertionSort byTimestamp = l₂.insertionSort byTimestamp := by
  have hperm : (l₁.insertionSort byTimestamp).Perm (l₂.insertionSort byTimestamp) :=
    (List.perm_insertionSort byTimestamp l₁).trans
      (hp.trans (List.perm_insertionSort byTimestamp l₂).symm)
  have hnd₁ : ((l₁.insertionSort byTimestamp).map Candle.timestamp).Nodup :=
    (((List.perm_insertionSort byTimestamp l₁).map Candle.timestamp).nodup_iff).mpr hnd
  have hnd₂ : ((l₂.insertionSort byTimestamp).map Candle.timestamp).Nodup :=
    (((List.perm_insertionSort byTimestamp l₂).map Candle.timestamp).nodup_iff).mpr
      (((hp.map Candle.timestamp).nodup_iff).mp hnd)
  exact List.eq_of_perm_of_sorted hperm
    (sorted_strict_of_sorted_nodup (List.sorted_insertionSort byTimestamp l₁) hnd₁)
    (sorted_strict_of_sorted_nodup (List.sorted_insertionSort byTimestamp l₂) hnd₂)

/-- Claim C9: for a `SnapshotEntry` with pairwise-distinct candle
timestamps, `compute_score` is invariant under permuting the history list,
because `candles_to_dataframe` sorts by timestamp before any indicator is
computed. -/
theorem claim_C9 (entry : SnapshotEntry) (history2 : List Candle) (profile : RiskProfile)
    (hp : entry.history.Perm history2)
    (hnd : (entry.history.map Candle.timestamp).Nodup) :
    compute_score ⟨entry.quote, entry.fundamentals, history2⟩ profile =
      compute_score entry profile := by
  have hdf : candles_to_dataframe history2 = candles_to_dataframe entry.history := by
    unfold candles_to_dataframe
    exact insertionSort_eq_of_perm_nodup history2 entry.history hp.symm
      (((hp.map Candle.timestamp).nodup_iff).mp hnd)
  simp only [compute_score, hdf]
  rfl

/-- Three concrete candles with distinct timestamps. -/
def candleA : Candle := ⟨1, 10, 11, 9, 10, 100⟩

def candleB : Candle := ⟨2, 10, 12, 10, 11, 100⟩

def candleC : Candle := ⟨3, 11, 13, 11, 12, 100⟩

/-- Witness for C9: a concrete 3-candle history and a rotation of it give
the same score and factors. -/
theorem claim_C9_witness :
    compute_score
      ⟨⟨"AAA", 10, 1, none, none⟩, none, [candleC, candleA, candleB]⟩
      RiskProfile.BALANSERAD =
    compute_score
      ⟨⟨"AAA", 10, 1, none, none⟩, none, [candleA, candleB, candleC]⟩
      RiskProfile.BALANSERAD :=
  claim_C9 ⟨⟨"AAA", 10, 1, none, none⟩, none, [candleA, candleB, candleC]⟩
    [candleC, candleA, candleB] RiskProfile.BALANSERAD
    (List.isPerm_iff.mp (by decide)) (by decide)

/-! ## Scoring/ranking pipeline (`app/services/analysis/pipeline.py`) -/

/-- Model of `SnapshotRequest` from `analysis/models.py` (`limit` is used only as a
slice bound, modelled as a natural number). -/
structure SnapshotRequest where
  symbols : List String
  profile : RiskProfile := RiskProfile.BALANSERAD
  limit : ℕ := 10

def SnapshotRequest.normalized_symbols (r : SnapshotRequest) : List String :=
  r.symbols.map upper

/-- The descending-score order used by
`recommendations.sort(key=lambda rec: rec.score, reverse=True)`. -/
def byScoreDesc (a b : Recommendation) : Prop := b.score ≤ a.score

instance : DecidableRel byScoreDesc :=
  fun a b => inferInstanceAs (Decidable (b.score ≤ a.score))

instance : IsTotal Recommendation byScoreDesc := ⟨fun a b => le_total b.score a.score⟩

instance : IsTrans Recommendation byScoreDesc := ⟨fun _ _ _ h₁ h₂ => le_trans h₂ h₁⟩

/-- The symbol list the pipeline operates on: the first `limit` universe
symbols when no symbols were requested, else the requested (upper-cased)
symbols truncated to `limit`. -/
def selected_symbols (tickers : List Ticker) (request : SnapshotRequest) : List String :=
  if request.normalized_symbols.isEmpty then
    (tickers.take request.limit).map Ticker.symbol
  else request.normalized_symbols.take request.limit

/-- The recommendation list in input-symbol order, before the final sort:
symbols whose quote is absent are skipped (`if not quote: continue`), the
remaining ones scored and classified.  `quotes` models the
`symbol_to_quote` lookup (the provider returns each quote keyed by the
requested upper-cased symbol). -/
def recommendationsUnsorted (quotes : String → Option Quote)
    (fundamentals : String → Option Fundamentals) (history : String → List Candle)
    (profile : RiskProfile) (symbols : List String) : List Recommendation :=
  (symbols.filterMap (fun symbol =>
      (quotes symbol).map (fun q =>
        SnapshotEntry.mk q (fundamentals symbol) (history symbol)))).map
    (fun entry =>
      { symbol := entry.quote.symbol, name := none, sector := none,
        price := entry.quote.price, change_pct := entry.quote.change_pct,
        score := (compute_score entry profile).1,
        signal := score_to_signal (compute_score entry profile).1,
        factors := (compute_score entry profile).2, profile := profile })

/-- Model of `build_recommendations` from `pipeline.py`: build the entries in input
order, score them, then sort by score descending.  Python `list.sort` is
stable; any stable sort produces the same output, so `insertionSort` is a
faithful model. -/
def build_recommendations (tickers : List Ticker) (quotes : String → Option Quote)
    (fundamentals : String → Option Fundamentals) (history : String → List Candle)
    (request : SnapshotRequest) : List Recommendation :=
  (recommendationsUnsorted quotes fundamentals history request.profile
    (selected_symbols tickers request)).insertionSort byScoreDesc

lemma filter_orderedInsert_pos {p : Recommendation → Bool} {a : Recommendation}
    (l : List Recommendation) (hpa : p a = true)
    (hcomp : ∀ b, ¬ byScoreDesc a b → p b = false) :
    (l.orderedInsert byScoreDesc a).filter p = a :: l.filter p := by
  rw [List.orderedInsert_eq_take_drop, List.filter_append]
  have htake : (l.takeWhile fun b => ¬ byScoreDesc a b).filter p = [] := by
    rw [List.filter_eq_nil_iff]
    intro b hb
    have hmem := List.mem_takeWhile_imp hb
    rw [hcomp b (of_decide_eq_true hmem)]
    simp
  rw [htake, List.nil_append, List.filter_cons, if_pos (by simp [hpa])]
  have hl : l.filter p = (l.dropWhile fun b => ¬ byScoreDesc a b).filter p := by
    conv_lhs =>
      rw [← List.takeWhile_append_dropWhile (p := fun b => decide (¬ byScoreDesc a b)) (l := l)]
    rw [List.filter_append, htake, List.nil_append]
  rw [hl]

lemma filter_orderedInsert_neg {p : Recommendation → Bool} {a : Recommendation}
    (l : List Recommendation) (hpa : p a = false) :
    (l.orderedInsert byScoreDesc a).filter p = l.filter p := by
  rw [List.orderedInsert_eq_take_drop, List.filter_append, List.filter_cons,
    if_neg (by simp [hpa])]
  conv_rhs =>
    rw [← List.takeWhile_append_dropWhile (p := fun b => decide (¬ byScoreDesc a b)) (l := l)]
  rw [List.filter_append]

lemma filter_insertionSort_score (q : ℚ) : ∀ l : List Recommendation,
    (l.insertionSort byScoreDesc).filter (fun r => decide (r.score = q)) =
      l.filter (fun r => decide (r.score = q))
  | [] => rfl
  | a :: t => by
    rw [List.insertionSort]
    by_cases hpa : a.score = q
    · rw [filter_orderedInsert_pos _ (by simp [hpa]) ?_]
      · rw [filter_insertionSort_score q t, List.filter_cons, if_pos (by simp [hpa])]
      · intro b hb
        have : a.score < b.score := lt_of_not_le hb
        have hne : b.score ≠ q := by
          rw [← hpa]
          exact ne_of_gt this
        simp [hne]
    · rw [filter_orderedInsert_neg _ (by simp [hpa])]
      rw [filter_insertionSort_score q t, List.filter_cons, if_neg (by simp [hpa])]

/-- Claim C7: the pipeline output is sorted by composite score in
descending order, and for every score value the entries carrying that score
appear in exactly the order in which the pre-sort pipeline produced them
from the input symbol list (stability of the sort). -/
theorem claim_C7 (tickers : List Ticker) (quotes : String → Option Quote)
    (fundamentals : String → Option Fundamentals) (history : String → List Candle)
    (request : SnapshotRequest) :
    List.Sorted byScoreDesc
      (build_recommendations tickers quotes fundamentals history request) ∧
    ∀ q : ℚ,
      (build_recommendations tickers quotes fundamentals history request).filter
        (fun r => decide (r.score = q)) =
      (recommendationsUnsorted quotes fundamentals history request.profile
        (selected_symbols tickers request)).filter (fun r => decide (r.score = q)) :=
  ⟨List.sorted_insertionSort byScoreDesc _, fun q => filter_insertionSort_score q _⟩

/-- Witness for C7 at concrete inputs: two symbols whose quotes are present,
no fundamentals, no history. -/
theorem claim_C7_witness :
    List.Sorted byScoreDesc
      (build_recommendations [] (fun s => some ⟨s, 10, 1, none, none⟩) (fun _ => none)
        (fun _ => []) ⟨["AAA", "BBB"], RiskProfile.BALANSERAD, 10⟩) ∧
    ∀ q : ℚ,
      (build_recommendations [] (fun s => some ⟨s, 10, 1, none, none⟩) (fun _ => none)
        (fun _ => []) ⟨["AAA", "BBB"], RiskProfile.BALANSERAD, 10⟩).filter
        (fun r => decide (r.score = q)) =
      (recommendationsUnsorted (fun s => some ⟨s, 10, 1, none, none⟩) (fun _ => none)
        (fun _ => []) RiskProfile.BALANSERAD
        (selected_symbols [] ⟨["AAA", "BBB"], RiskProfile.BALANSERAD, 10⟩)).filter
        (fun r => decide (r.score = q)) :=
  claim_C7 [] (fun s => some ⟨s, 10, 1, none, none⟩) (fun _ => none) (fun _ => [])
    ⟨["AAA", "BBB"], RiskProfile.BALANSERAD, 10⟩

end StockTrading
